import Mathlib

/-!
Shallow embedding of `src/nasa_nebula_fetcher.py`.

The module translates the static lookup tables, the SIMBAD astrometry lookup
with its fixed fallback, the VizieR composition scan, the NASA image-search
parser, the selection/download loop of `main`, and the report writer.
External services are modelled by passing their responses in as values; the
machine floats of the source are modelled by exact rationals; an exception
raised inside a `try` block is modelled by the `Option`/branching structure of
the corresponding definition.
-/

namespace NebulaFetcher

/-- Apostrophe character (U+0027), built numerically. -/
def apostrofe : Char := Char.ofNat 39

/-- Python membership test `needle in haystack` on lists of characters. -/
def contemLista (agulha s : List Char) : Bool :=
  (List.range (s.length + 1)).any (fun i => agulha.isPrefixOf (s.drop i))

/-- Python substring test `needle in haystack` on strings. -/
def contem (agulha s : String) : Bool := contemLista agulha.data s.data

/-- Python `str.strip()` with no argument: drop whitespace at both ends. -/
def pstrip (s : String) : String :=
  (((s.data.dropWhile Char.isWhitespace).reverse.dropWhile Char.isWhitespace).reverse).asString

/-- Python `query.replace(...)` removing every apostrophe (source line 140). -/
def removeApostrofes (s : String) : String :=
  (s.data.filter (fun c => c ≠ apostrofe)).asString

/-- Helper for `pysplit`: walk the characters keeping the current token. -/
def pysplitAux : List Char → List Char → List String
  | [], acc => if acc = [] then [] else [acc.reverse.asString]
  | c :: rest, acc =>
    if c.isWhitespace then
      if acc = [] then pysplitAux rest []
      else acc.reverse.asString :: pysplitAux rest []
    else pysplitAux rest (c :: acc)

/-- Python `str.split()` with no argument: split on whitespace runs, dropping
empty tokens. -/
def pysplit (s : String) : List String := pysplitAux s.data []

/-- Python `int(n)` on a string of digits. -/
def natDeDigitos (l : List Char) : Nat :=
  l.foldl (fun acc c => acc * 10 + (c.toNat - 48)) 0

/-- Python `str.isdigit()` (ASCII fragment): nonempty and all digit characters. -/
def isdigitStr (s : String) : Bool := s ≠ "" && s.data.all (fun c => c.isDigit)

/-- Python `dict.get k` on an association list (first binding wins). -/
def dget {α : Type} (m : List (String × α)) (k : String) : Option α :=
  match m with
  | [] => none
  | (k2, v) :: rest => if k = k2 then some v else dget rest k

/-- The catalog name of NGC 6543, which contains an apostrophe. -/
def catsEyeNebula : String := "Cat" ++ apostrofe.toString ++ "s Eye Nebula"

/-- Static name-to-identifier table `MAPEAMENTO_SIMBAD` (source lines 23-30). -/
def MAPEAMENTO_SIMBAD : List (String × String) :=
  [(catsEyeNebula, "NGC 6543"),
   ("Ring Nebula", "NGC 6720"),
   ("Eskimo Nebula", "NGC 2392"),
   ("Helix Nebula", "NGC 7293"),
   ("Dumbbell Nebula", "NGC 6853"),
   ("Saturn Nebula", "NGC 7009")]

/-- Name resolution as performed at source lines 49, 69 and 105:
`MAPEAMENTO_SIMBAD.get(nome, nome)`. -/
def resolver_nome (nome : String) : String :=
  (dget MAPEAMENTO_SIMBAD nome).getD nome

/-- Astrometric record, the dict built at source line 59 and stored in
`DADOS_FIXOS`; distances are exact rationals standing for the floats. -/
structure Registro where
  ra : String
  dec : String
  dist_pc : Option ℚ
  dist_ly : Option ℚ
deriving DecidableEq

/-- Static astrometric fallback table `DADOS_FIXOS` (source lines 32-36). -/
def DADOS_FIXOS : List (String × Registro) :=
  [("NGC 6543", ⟨"17 58 33.4", "+66 37 59", some 1001, some (6533 / 2 : ℚ)⟩),
   ("NGC 6720", ⟨"18 53 35.1", "+33 01 45", some 720, some (23503 / 10 : ℚ)⟩),
   ("NGC 2392", ⟨"07 29 10.8", "+20 54 42", some 870, some (14188 / 5 : ℚ)⟩)]

/-- Generic composition list `COMPOSICAO_GENERICA` (source lines 38-43). -/
def COMPOSICAO_GENERICA : List (String × String × String) :=
  [("Hidrogênio (Hα)", "656.3 nm", "vermelho"),
   ("Oxigênio duplamente ionizado [O III]", "495.9 nm e 500.7 nm", "verde-brilhante"),
   ("Hélio II", "468.6 nm", "azulado"),
   ("Nitrogênio ionizado [N II]", "658.4 nm", "vermelho-alaranjado")]

/-- Character class of `re.sub` at source line 46: backslash, slash, star,
question mark, colon, double quote, less-than, greater-than, pipe (by code). -/
def caracteresProibidos : List Char :=
  [Char.ofNat 92, Char.ofNat 47, Char.ofNat 42, Char.ofNat 63, Char.ofNat 58,
   Char.ofNat 34, Char.ofNat 60, Char.ofNat 62, Char.ofNat 124]

/-- Source lines 45-46: replace spaces by underscores, then replace every
filesystem-unsafe character by an underscore. -/
def limpar_nome_arquivo (texto : String) : String :=
  ((texto.data.map (fun c => if c = ' ' then '_' else c)).map
    (fun c => if caracteresProibidos.contains c then '_' else c)).asString

/-- The conversion constant 3.26156 of source line 58, as an exact rational. -/
def LY_POR_PC : ℚ := 326156 / 100000

/-- One SIMBAD result table: column names, number of rows (`if result` at
source line 54 is truthy exactly when the table is non-null and has rows), the
values read at lines 55-57.  `distVal` is the value of column
`Distance_distance` when that column is present; `none` stands for a masked or
missing cell. -/
structure TabelaSimbad where
  colnames : List String
  rows : Nat
  raVal : String
  decVal : String
  distVal : Option ℚ
deriving DecidableEq

/-- Outcome of `Simbad.query_object` at source line 53: either the `try` block
raises (`erro`), or it yields `None` or a table. -/
inductive SimbadSaida where
  | erro : SimbadSaida
  | ok : Option TabelaSimbad → SimbadSaida

/-- Source lines 54-59: the record built from a usable remote result, `none`
when the result is null/empty or lacks RA/DEC columns (the `if` falls
through), matching the truthiness test `if dist_pc` for the derivation. -/
def registro_remoto : Option TabelaSimbad → Option Registro
  | none => none
  | some t =>
    if t.rows ≠ 0 ∧ t.colnames.contains "RA" ∧ t.colnames.contains "DEC" then
      let dist_pc : Option ℚ :=
        if t.colnames.contains "Distance_distance" then t.distVal else none
      let dist_ly : Option ℚ :=
        match dist_pc with
        | some q => if q ≠ 0 then some (q * LY_POR_PC) else none
        | none => none
      some ⟨t.raVal, t.decVal, dist_pc, dist_ly⟩
    else none

/-- Value produced by the `try` block of `buscar_dados_simbad` (lines 50-61):
an exception is caught and yields `none`. -/
def via_remoto : SimbadSaida → Option Registro
  | SimbadSaida.erro => none
  | SimbadSaida.ok t => registro_remoto t

/-- Astrometry Lookup `buscar_dados_simbad` (source lines 48-65), parameterised
by the remote outcome: remote record if usable, else the static fallback keyed
by the resolved identifier, else `None`.  The remote outcome is consumed once;
no retry exists in the control flow. -/
def buscar_dados_simbad (nome_objeto : String) (remoto : SimbadSaida) : Option Registro :=
  let nome_query := resolver_nome nome_objeto
  match via_remoto remoto with
  | some r => some r
  | none => dget DADOS_FIXOS nome_query

/-- One VizieR table (source lines 95-99): ordered columns, each a name with
its cells rendered as strings. -/
structure Tabela where
  cols : List (String × List String)
deriving DecidableEq

/-- The column-name test of source line 97. -/
def colunaAbund (coluna : String) : Bool :=
  contem "logOH" coluna || contem "O_H" coluna

/-- Scan of the columns of one table (inner loop of lines 96-99): cells of the
first column whose name matches. -/
def primeira_coluna_abund : List (String × List String) → Option (List String)
  | [] => none
  | (nome, cells) :: rest =>
    if colunaAbund nome then some cells else primeira_coluna_abund rest

/-- Scan of all tables (outer loop of lines 95-99): cells of the first
matching column of the first table holding one. -/
def primeira_abund : List Tabela → Option (List String)
  | [] => none
  | t :: ts =>
    match primeira_coluna_abund t.cols with
    | some cells => some cells
    | none => primeira_abund ts

/-- Composition Lookup `buscar_composicao_quimica` (source lines 90-102),
parameterised by the VizieR response.  `tabela[coluna][0]` on a matching
column with no rows raises `IndexError`, caught at line 100, hence the
empty-cells branch returns `none`. -/
def buscar_composicao_quimica (resultado : List Tabela) : Option String :=
  match primeira_abund resultado with
  | none => none
  | some [] => none
  | some (v :: _) => some ("log(O/H) ≈ " ++ v)

/-- Rendering of the Python format `{q:.1f}` on an exact rational; the
rounding mode approximates the float formatter and no claim depends on it. -/
def fmt1 (q : ℚ) : String :=
  let n : Int := Int.floor (q * 10 + 1 / 2)
  toString (n / 10) ++ "." ++ toString ((n % 10).natAbs)

/-- Rendering of the Python format `{q:.0f}`, same caveat as `fmt1`. -/
def fmt0 (q : ℚ) : String := toString (Int.floor (q + 1 / 2))

/-- Raw interpolation `{dados_astro[...]}` of a numeric value. -/
def ratRender (q : ℚ) : String :=
  if q.den = 1 then toString q.num else toString q

/-- Composition section of the report (source lines 130-135): one derived line
when the lookup returned a value (a nonempty string, hence truthy), else the
four generic lines. -/
def composicao_section (composicao_real : Option String) : List String :=
  match composicao_real with
  | some s => ["- " ++ s ++ " (extraída de catálogo real via VizieR)"]
  | none =>
    COMPOSICAO_GENERICA.map
      (fun e => "- " ++ e.1 ++ " (linha em " ++ e.2.1 ++ ") - tonalidade: " ++ e.2.2)

/-- Caption paragraph of source lines 123-128 (`if dados_astro and
dados_astro[dist_ly]` is truthy exactly for a present nonzero value). -/
def legenda (nome : String) (dados : Option Registro) : String :=
  match dados with
  | some d =>
    match d.dist_ly with
    | some ly =>
      if ly ≠ 0 then
        "Imagem da " ++ nome ++ ", localizada a aproximadamente " ++ fmt0 ly ++
          " anos-luz da Terra. RA: " ++ d.ra ++ " | DEC: " ++ d.dec ++ ". Crédito: NASA."
      else "Imagem da " ++ nome ++ ". Dados incompletos. Crédito: NASA."
    | none => "Imagem da " ++ nome ++ ". Dados incompletos. Crédito: NASA."
  | none => "Imagem da " ++ nome ++ ". Dados incompletos. Crédito: NASA."

/-- Distance line of the report (source lines 113-114): present only when
`dados_astro[dist_ly]` is truthy; no `else` branch exists, so a falsy value
omits the line. -/
def linha_distancia (d : Registro) : List String :=
  match d.dist_ly with
  | some ly =>
    if ly ≠ 0 then
      ["Distância estimada: " ++ fmt1 ly ++ " anos-luz (" ++ ratRender (d.dist_pc.getD 0) ++ " pc)"]
    else []
  | none => []

/-- Lines of the report file written by `salvar_info_em_txt` (source lines
109-135); each `f.write` contributes the lines between its newlines, the
timestamp of line 118 is a parameter. -/
def linhas_relatorio (nome : String) (dados : Option Registro) (imagens : List String)
    (composicao_real : Option String) (timestamp : String) : List String :=
  ["Nebulosa: " ++ nome] ++
  (match dados with
   | some d => ["Coordenadas: RA = " ++ d.ra ++ ", DEC = " ++ d.dec] ++ linha_distancia d
   | none => ["Dados astronômicos indisponíveis."]) ++
  ["Data: " ++ timestamp, "", "Imagens baixadas:"] ++
  imagens.map (fun img => "- " ++ img) ++
  ["", "Legenda científica sugerida para uso:", legenda nome dados,
   "", "Composição química estimada:"] ++
  composicao_section composicao_real

/-- Report Writer `salvar_info_em_txt` (source lines 104-137), parameterised
by the VizieR response used by its internal composition lookup for the
resolved identifier of line 105: returns the file name of line 106 and the
written lines. -/
def salvar_info_em_txt (nome_nebulosa : String) (dados_astro : Option Registro)
    (imagens : List String) (resultadoVizier : List Tabela) (timestamp : String) :
    String × List String :=
  let arquivo_nome := limpar_nome_arquivo nome_nebulosa ++ "_info.txt"
  let composicao_real := buscar_composicao_quimica resultadoVizier
  (arquivo_nome, linhas_relatorio nome_nebulosa dados_astro imagens composicao_real timestamp)

/-- Console lines of `main` at source lines 183-190. -/
def console_saida (dados : Option Registro) : List String :=
  match dados with
  | some d =>
    ["📍 Coordenadas: RA = " ++ d.ra ++ ", DEC = " ++ d.dec] ++
    (match d.dist_ly with
     | some ly =>
       if ly ≠ 0 then
         ["🌌 Distância estimada: " ++ fmt1 ly ++ " anos-luz (" ++
           ratRender (d.dist_pc.getD 0) ++ " pc)"]
       else ["🌌 Distância não disponível."]
     | none => ["🌌 Distância não disponível."])
  | none => ["⚠️ Dados astronômicos não encontrados no SIMBAD."]

/-- The `data[0]` object of one search-response item (source lines 154-158);
`none` stands for a missing key. -/
structure DataBlock where
  title : Option String
  description : Option String
  date_created : Option String
deriving DecidableEq

/-- One entry of an item's `links` array (source line 159). -/
structure Link where
  href : Option String
deriving DecidableEq

/-- One item of `collection.items`; `data = none` models a missing `data` key
(`item["data"]` raises `KeyError`), `links = none` a missing `links` key
(defaulted by `.get`). -/
structure Item where
  data : Option (List DataBlock)
  links : Option (List Link)
deriving DecidableEq

/-- Image Candidate dict built at source lines 155-160. -/
structure Candidate where
  title : String
  description : String
  date_created : String
  image_url : String
deriving DecidableEq

/-- Body of the loop at source lines 153-160 for one item: `none` models an
exception (`KeyError` on a missing `data` key, `IndexError` on an empty
`data` list or on indexing `[0]` into a present-but-empty `links` list). -/
def parse_item (it : Item) : Option Candidate :=
  match it.data with
  | none => none
  | some [] => none
  | some (data_block :: _) =>
    match it.links.getD [⟨none⟩] with
    | [] => none
    | l :: _ =>
      some ⟨data_block.title.getD "Sem título",
            data_block.description.getD "Sem descrição",
            data_block.date_created.getD "Desconhecida",
            l.href.getD ""⟩

/-- Image Search `search_nasa_images` (source lines 139-165), parameterised by
the HTTP status and the decoded `collection.items` array.  Returns the query
string actually sent (line 140 rewrites the local variable before the
request) together with the candidate list.  An exception anywhere inside the
`try` block — in particular while parsing any of the first `max_results`
items — reaches the handler at line 163, which returns the empty list. -/
def search_nasa_images (query : String) (status : Nat) (items : List Item)
    (max_results : Nat) : String × List Candidate :=
  let q := pstrip (removeApostrofes query)
  if status ≠ 200 then (q, [])
  else
    let taken := items.take max_results
    if taken.all (fun it => (parse_item it).isSome) then (q, taken.filterMap parse_item)
    else (q, [])

/-- Follows the claim's words (spec section 4.5): an Image Candidate per item,
missing title/description/date replaced by the placeholder strings, the image
URL taken from the first link entry if present, else empty.  Used only to
compare `search_nasa_images` against the specified per-item mapping. -/
def candidate_spec (it : Item) : Candidate :=
  let data_block := (it.data.getD []).headD ⟨none, none, none⟩
  { title := data_block.title.getD "Sem título",
    description := data_block.description.getD "Sem descrição",
    date_created := data_block.date_created.getD "Desconhecida",
    image_url :=
      match it.links with
      | some (l :: _) => l.href.getD ""
      | some [] => ""
      | none => "" }

/-- An item on which the loop body of lines 153-160 does not raise: its
`data` list is nonempty and its `links` key, when present, holds a nonempty
array. -/
def itemWF (it : Item) : Bool :=
  (match it.data with
   | some (_ :: _) => true
   | _ => false) &&
  it.links ≠ some []

/-- Selection parsing of source line 205:
`[int(n)-1 for n in selections.split() if n.isdigit()]`. -/
def numeros_escolhidos (selections : String) : List Int :=
  ((pysplit selections).filter isdigitStr).map (fun n => ((natDeDigitos n.data : Nat) : Int) - 1)

/-- Image file name of source lines 210-211: sanitized title joined with the
date part before the first character T of the creation date, or the literal
fallback when no T occurs. -/
def nome_arquivo_img (item : Candidate) : String :=
  let data_formatada :=
    if item.date_created.data.contains 'T' then
      (item.date_created.data.takeWhile (fun c => c ≠ 'T')).asString
    else "data_desconhecida"
  limpar_nome_arquivo item.title ++ "_" ++ data_formatada ++ ".jpg"

/-- Default candidate used for the (unreachable, bounds-checked) list access. -/
def cdef : Candidate := ⟨"", "", "", ""⟩

/-- Observable outcome of the loop at source lines 207-215: `baixadas` is the
`imagens_baixadas` list handed to `salvar_info_em_txt` at line 217, `salvas`
the files actually written by `img.save`, `avisos` the out-of-range warnings
of line 215, `erros` the per-image failure logs of line 175 (the exception
text itself is not modelled). -/
structure BatchResult where
  baixadas : List String
  salvas : List String
  avisos : List String
  erros : List String
deriving DecidableEq

/-- Bounds test `0 <= idx < len(images)` of source line 208. -/
def validIdx (images : List Candidate) (i : Int) : Bool :=
  decide (0 ≤ i ∧ i < (images.length : Int))

/-- Failure log message of source line 175, without the exception text. -/
def erroMsg : String := "⚠️ Erro ao baixar/abrir imagem"

/-- File name derived for the candidate `item = images[idx]` of source line
209 (the default is unreachable: the access is guarded by the bounds check). -/
def fnOf (images : List Candidate) (i : Int) : String :=
  nome_arquivo_img (images.getD i.toNat cdef)

/-- URL of the candidate `item = images[idx]` of source line 209. -/
def urlOf (images : List Candidate) (i : Int) : String :=
  (images.getD i.toNat cdef).image_url

/-- Download loop of `main` (source lines 207-215), parameterised by a
predicate `falha` telling for which image URLs the download or decode inside
`download_and_show_image` raises.  That function catches its own exceptions
(lines 169-175), so line 213 appends the file name unconditionally. -/
def processa_downloads (images : List Candidate) (falha : String → Bool) :
    List Int → BatchResult
  | [] => ⟨[], [], [], []⟩
  | idx :: rest =>
    let r := processa_downloads images falha rest
    if validIdx images idx then
      { baixadas := fnOf images idx :: r.baixadas,
        salvas := (if falha (urlOf images idx) then [] else [fnOf images idx]) ++ r.salvas,
        avisos := r.avisos,
        erros := (if falha (urlOf images idx) then [erroMsg] else []) ++ r.erros }
    else
      { baixadas := r.baixadas, salvas := r.salvas,
        avisos := ("⚠️ Índice inválido: " ++ toString (idx + 1)) :: r.avisos,
        erros := r.erros }

/-- Generic four-line composition section, as written at source lines 134-135. -/
def linhas_genericas : List String :=
  COMPOSICAO_GENERICA.map
    (fun e => "- " ++ e.1 ++ " (linha em " ++ e.2.1 ++ ") - tonalidade: " ++ e.2.2)

theorem composicao_section_none : composicao_section none = linhas_genericas := rfl

/-- Helper: the column scan of one table finds nothing exactly when no column
name matches. -/
theorem primeira_coluna_abund_none (cols : List (String × List String)) :
    primeira_coluna_abund cols = none ↔ ∀ p ∈ cols, colunaAbund p.1 = false := by
  induction cols with
  | nil => simp [primeira_coluna_abund]
  | cons p rest ih =>
    rcases p with ⟨nome, cells⟩
    by_cases h : colunaAbund nome = true
    · simp [primeira_coluna_abund, h]
    · simp only [Bool.not_eq_true] at h
      simp [primeira_coluna_abund, h, ih]

/-- Helper: a successful column scan returns the cells of a matching column. -/
theorem primeira_coluna_abund_some (cols : List (String × List String)) (cells : List String)
    (h : primeira_coluna_abund cols = some cells) :
    ∃ nome, (nome, cells) ∈ cols ∧ colunaAbund nome = true := by
  induction cols with
  | nil => simp [primeira_coluna_abund] at h
  | cons p rest ih =>
    rcases p with ⟨nome, cs⟩
    by_cases hm : colunaAbund nome = true
    · simp [primeira_coluna_abund, hm] at h
      exact ⟨nome, by simp [h], hm⟩
    · simp only [Bool.not_eq_true] at hm
      simp [primeira_coluna_abund, hm] at h
      obtain ⟨n, hmem, hc⟩ := ih h
      exact ⟨n, by simp [hmem], hc⟩

/-- Helper: the table scan finds nothing exactly when no table has a matching
column. -/
theorem primeira_abund_none (ts : List Tabela) :
    primeira_abund ts = none ↔ ∀ t ∈ ts, ∀ p ∈ t.cols, colunaAbund p.1 = false := by
  induction ts with
  | nil => simp [primeira_abund]
  | cons t rest ih =>
    cases hcol : primeira_coluna_abund t.cols with
    | some cells =>
      obtain ⟨nome, hmem, hc⟩ := primeira_coluna_abund_some t.cols cells hcol
      simp only [primeira_abund, hcol]
      constructor
      · intro h; exact absurd h (by simp)
      · intro h
        have := h t (by simp) (nome, cells) hmem
        simp [hc] at this
    | none =>
      have hall := (primeira_coluna_abund_none t.cols).mp hcol
      simp only [primeira_abund, hcol, ih]
      constructor
      · intro h t2 ht2 p hp
        rcases List.mem_cons.mp ht2 with h1 | h2
        · subst h1; exact hall p hp
        · exact h t2 h2 p hp
      · intro h t2 ht2 p hp
        exact h t2 (List.mem_cons_of_mem _ ht2) p hp

/-- Helper: a successful table scan returns the cells of a matching column of
one of the tables. -/
theorem primeira_abund_some (ts : List Tabela) (cells : List String)
    (h : primeira_abund ts = some cells) :
    ∃ t ∈ ts, ∃ nome, (nome, cells) ∈ t.cols ∧ colunaAbund nome = true := by
  induction ts with
  | nil => simp [primeira_abund] at h
  | cons t rest ih =>
    cases hcol : primeira_coluna_abund t.cols with
    | some cs =>
      simp only [primeira_abund, hcol, Option.some.injEq] at h
      obtain ⟨nome, hmem, hc⟩ := primeira_coluna_abund_some t.cols cs hcol
      exact ⟨t, by simp, nome, h ▸ hmem, hc⟩
    | none =>
      simp only [primeira_abund, hcol] at h
      obtain ⟨t2, ht2, nome, hmem, hc⟩ := ih h
      exact ⟨t2, List.mem_cons_of_mem _ ht2, nome, hmem, hc⟩

/-- Helper: on a well-formed item the loop body raises nowhere and builds the
specified candidate. -/
theorem parse_item_wf (it : Item) (h : itemWF it = true) :
    parse_item it = some (candidate_spec it) := by
  rcases it with ⟨data, links⟩
  cases data with
  | none => simp [itemWF] at h
  | some l =>
    cases l with
    | nil => simp [itemWF] at h
    | cons db rest =>
      cases links with
      | none => rfl
      | some ls =>
        cases ls with
        | nil => simp [itemWF] at h
        | cons lk ls2 => rfl

/-- Helper: over a list of well-formed items the parse loop succeeds on every
item and equals the specified per-item mapping. -/
theorem filterMap_parse (l : List Item) (h : ∀ it ∈ l, itemWF it = true) :
    l.filterMap parse_item = l.map candidate_spec ∧
    l.all (fun it => (parse_item it).isSome) = true := by
  induction l with
  | nil => exact ⟨rfl, rfl⟩
  | cons it rest ih =>
    have h1 := parse_item_wf it (h it (by simp))
    have ih2 := ih (fun x hx => h x (by simp [hx]))
    constructor
    · simp [List.filterMap_cons, h1, ih2.1]
    · simp [List.all_cons, h1, ih2.2]

/-- Helper: a 200 response whose first `max_results` items are well formed is
parsed into the specified candidates of the taken prefix. -/
theorem search_wf_eq (query : String) (items : List Item) (maxr : Nat)
    (hwf : ∀ it ∈ items.take maxr, itemWF it = true) :
    (search_nasa_images query 200 items maxr).2 = (items.take maxr).map candidate_spec := by
  have h := filterMap_parse (items.take maxr) hwf
  unfold search_nasa_images
  simp [h.1, h.2]

/-- Helper: closed form of the download loop: the report list collects every
in-range index, the saved files only the non-failing ones, the warnings the
out-of-range indices, the failure logs the failing ones. -/
theorem processa_eq (images : List Candidate) (falha : String → Bool) (idxs : List Int) :
    processa_downloads images falha idxs =
      ⟨(idxs.filter (validIdx images)).map (fnOf images),
       ((idxs.filter (validIdx images)).filter (fun i => !falha (urlOf images i))).map
         (fnOf images),
       (idxs.filter (fun i => !validIdx images i)).map
         (fun i => "⚠️ Índice inválido: " ++ toString (i + 1)),
       ((idxs.filter (validIdx images)).filter (fun i => falha (urlOf images i))).map
         (fun _ => erroMsg)⟩ := by
  induction idxs with
  | nil => rfl
  | cons idx rest ih =>
    by_cases h : validIdx images idx = true
    · by_cases hf : falha (urlOf images idx) = true
      · simp [processa_downloads, ih, h, hf, List.filter_cons]
      · simp only [Bool.not_eq_true] at hf
        simp [processa_downloads, ih, h, hf, List.filter_cons]
    · simp only [Bool.not_eq_true] at h
      simp [processa_downloads, ih, h, List.filter_cons]

/-- C1 (amended): for an Astrometric Record built from the remote service with
a nonzero parsec distance, the light-year distance equals the parsec distance
times 3.26156 exactly, hence within tolerance 1e-6; the static fallback
records instead carry independently stored light-year values. -/
theorem c1_distancia_remota_exata (nome : String) (t : TabelaSimbad) (q : ℚ)
    (h1 : t.rows ≠ 0) (h2 : "RA" ∈ t.colnames)
    (h3 : "DEC" ∈ t.colnames)
    (h4 : "Distance_distance" ∈ t.colnames)
    (h5 : t.distVal = some q) (h6 : q ≠ 0) :
    buscar_dados_simbad nome (SimbadSaida.ok (some t)) =
      some ⟨t.raVal, t.decVal, some q, some (q * LY_POR_PC)⟩ ∧
    |q * LY_POR_PC - q * LY_POR_PC| ≤ 1 / 1000000 := by
  constructor
  · simp [buscar_dados_simbad, via_remoto, registro_remoto, h1, h2, h3, h4, h5, h6]
  · simp

/-- C1 counterexample: the fallback record for NGC 6543, as returned by
Astrometry Lookup on a failed remote query, has parsec distance 1001 but a
stored light-year value 3266.5 that differs from 1001 times 3.26156 by far
more than 1e-6. -/
theorem c1_tabela_fixa_cex :
    buscar_dados_simbad "NGC 6543" SimbadSaida.erro =
      some ⟨"17 58 33.4", "+66 37 59", some 1001, some (6533 / 2 : ℚ)⟩ ∧
    ¬ |(6533 / 2 : ℚ) - 1001 * LY_POR_PC| ≤ 1 / 1000000 := by
  constructor
  · rfl
  · rw [LY_POR_PC, not_le]
    have habs : |(6533 / 2 : ℚ) - 1001 * (326156 / 100000)| = 41961 / 25000 := by
      rw [show (6533 / 2 : ℚ) - 1001 * (326156 / 100000) = 41961 / 25000 by norm_num]
      exact abs_of_pos (by norm_num)
    rw [habs]
    norm_num

/-- C1 witness: a concrete remote table with a 100-parsec distance. -/
theorem c1_distancia_remota_exata_witness :
    buscar_dados_simbad "Obj X"
      (SimbadSaida.ok (some ⟨["RA", "DEC", "Distance_distance"], 1,
        "00 00 00.0", "+00 00 00", some 100⟩)) =
      some ⟨"00 00 00.0", "+00 00 00", some 100, some (100 * LY_POR_PC)⟩ ∧
    |(100 : ℚ) * LY_POR_PC - 100 * LY_POR_PC| ≤ 1 / 1000000 :=
  c1_distancia_remota_exata "Obj X"
    ⟨["RA", "DEC", "Distance_distance"], 1, "00 00 00.0", "+00 00 00", some 100⟩ 100
    (by decide) (by decide) (by decide) (by decide) rfl (by norm_num)

/-- C5: when the remote outcome is unusable (exception, null or empty result,
or missing RA/DEC columns) and the resolved identifier is a key of the static
table, Astrometry Lookup returns exactly the stored record; the single remote
outcome is consumed once, the definition contains no second query. -/
theorem c5_fallback_exato (nome : String) (remoto : SimbadSaida) (reg : Registro)
    (hfail : via_remoto remoto = none)
    (hkey : dget DADOS_FIXOS (resolver_nome nome) = some reg) :
    buscar_dados_simbad nome remoto = some reg := by
  simp [buscar_dados_simbad, hfail, hkey]

/-- C5 witness: a failed remote query for NGC 6720. -/
theorem c5_fallback_exato_witness :
    buscar_dados_simbad "NGC 6720" SimbadSaida.erro =
      some ⟨"18 53 35.1", "+33 01 45", some 720, some (23503 / 10 : ℚ)⟩ :=
  c5_fallback_exato "NGC 6720" SimbadSaida.erro
    ⟨"18 53 35.1", "+33 01 45", some 720, some (23503 / 10 : ℚ)⟩ rfl rfl

/-- C8: name resolution is the pure total function `resolver_nome`; it returns
the mapped identifier on keys of the static table and the input unchanged on
non-keys. -/
theorem c8_resolucao_nome :
    (∀ k v, dget MAPEAMENTO_SIMBAD k = some v → resolver_nome k = v) ∧
    (∀ s, dget MAPEAMENTO_SIMBAD s = none → resolver_nome s = s) := by
  constructor
  · intro k v h
    simp [resolver_nome, h]
  · intro s h
    simp [resolver_nome, h]

/-- C8 witness: a key of the table and a non-key. -/
theorem c8_resolucao_nome_witness :
    resolver_nome "Ring Nebula" = "NGC 6720" ∧
    resolver_nome "Orion Nebula" = "Orion Nebula" :=
  ⟨c8_resolucao_nome.1 "Ring Nebula" "NGC 6720" (by decide),
   c8_resolucao_nome.2 "Orion Nebula" (by decide)⟩

/-- C9: a remote result with a parsec distance of exactly 0 yields a record
whose light-year field is absent; the console output equals that of a record
with no distance at all (a single not-available line, no estimated-distance
line) and the report lines equal those of a record with no distance, so the
two cases are indistinguishable at the public interface. -/
theorem c9_distancia_zero_indistinguivel (nome : String) (t : TabelaSimbad)
    (h1 : t.rows ≠ 0) (h2 : "RA" ∈ t.colnames)
    (h3 : "DEC" ∈ t.colnames)
    (h4 : "Distance_distance" ∈ t.colnames)
    (h5 : t.distVal = some 0) :
    buscar_dados_simbad nome (SimbadSaida.ok (some t)) =
      some ⟨t.raVal, t.decVal, some 0, none⟩ ∧
    console_saida (some ⟨t.raVal, t.decVal, some 0, none⟩) =
      console_saida (some ⟨t.raVal, t.decVal, none, none⟩) ∧
    console_saida (some ⟨t.raVal, t.decVal, some 0, none⟩) =
      ["📍 Coordenadas: RA = " ++ t.raVal ++ ", DEC = " ++ t.decVal,
       "🌌 Distância não disponível."] ∧
    (∀ (nm : String) (imgs : List String) (comp : Option String) (ts : String),
      linhas_relatorio nm (some ⟨t.raVal, t.decVal, some 0, none⟩) imgs comp ts =
        linhas_relatorio nm (some ⟨t.raVal, t.decVal, none, none⟩) imgs comp ts) := by
  refine ⟨?_, rfl, rfl, fun nm imgs comp ts => rfl⟩
  simp [buscar_dados_simbad, via_remoto, registro_remoto, h1, h2, h3, h4, h5]

/-- C9 witness: a concrete table with distance 0. -/
theorem c9_distancia_zero_witness :
    buscar_dados_simbad "Obj Z"
      (SimbadSaida.ok (some ⟨["RA", "DEC", "Distance_distance"], 1, "01 02 03", "+04 05 06",
        some 0⟩)) = some ⟨"01 02 03", "+04 05 06", some 0, none⟩ ∧
    linhas_relatorio "Obj Z" (some ⟨"01 02 03", "+04 05 06", some 0, none⟩) [] none "agora" =
      linhas_relatorio "Obj Z" (some ⟨"01 02 03", "+04 05 06", none, none⟩) [] none "agora" := by
  have h := c9_distancia_zero_indistinguivel "Obj Z"
    ⟨["RA", "DEC", "Distance_distance"], 1, "01 02 03", "+04 05 06", some 0⟩
    (by decide) (by decide) (by decide) (by decide) rfl
  exact ⟨h.1, h.2.2.2 "Obj Z" [] none "agora"⟩

/-- C2 (amended): provided every column of every returned table has at least
one cell, the composition section is the fixed four-line generic list exactly
when no table has a column whose name contains logOH or O_H, and when the
scan finds a matching column its first cell is reported with no ranking among
matches; a matching column with no cells instead raises, is caught, and also
yields the generic list. -/
theorem c2_composicao_generica_sse (resultado : List Tabela)
    (hne : ∀ t ∈ resultado, ∀ p ∈ t.cols, p.2 ≠ []) :
    (composicao_section (buscar_composicao_quimica resultado) = linhas_genericas ↔
      ¬ ∃ t ∈ resultado, ∃ p ∈ t.cols, colunaAbund p.1 = true) ∧
    (∀ v cs, primeira_abund resultado = some (v :: cs) →
      composicao_section (buscar_composicao_quimica resultado) =
        ["- " ++ ("log(O/H) ≈ " ++ v) ++ " (extraída de catálogo real via VizieR)"]) := by
  constructor
  · constructor
    · intro hgen
      cases hb : primeira_abund resultado with
      | none =>
        have hall := (primeira_abund_none resultado).mp hb
        rintro ⟨t, ht, p, hp, habund⟩
        have := hall t ht p hp
        rw [this] at habund
        exact Bool.false_ne_true habund
      | some cells =>
        cases cells with
        | nil =>
          obtain ⟨t, ht, nome, hmem, _⟩ := primeira_abund_some resultado [] hb
          exact absurd rfl (hne t ht (nome, []) hmem)
        | cons v cs =>
          rw [buscar_composicao_quimica, hb] at hgen
          simp [composicao_section, linhas_genericas, COMPOSICAO_GENERICA] at hgen
    · intro hnone
      have hb : primeira_abund resultado = none := by
        rw [primeira_abund_none]
        intro t ht p hp
        by_contra hc
        simp only [Bool.not_eq_false] at hc
        exact hnone ⟨t, ht, p, hp, hc⟩
      rw [buscar_composicao_quimica, hb, composicao_section_none]
  · intro v cs hb
    rw [buscar_composicao_quimica, hb]
    rfl

/-- C2 counterexample: a catalog response whose only table has a column named
logOH with no cells; a matching column exists, yet the section is the generic
four-line list. -/
theorem c2_composicao_cex :
    (∃ t ∈ [Tabela.mk [("logOH", [])]], ∃ p ∈ t.cols, colunaAbund p.1 = true) ∧
    composicao_section (buscar_composicao_quimica [Tabela.mk [("logOH", [])]]) =
      linhas_genericas := by
  constructor
  · exact ⟨Tabela.mk [("logOH", [])], by simp, ("logOH", []), by simp, by decide⟩
  · rfl

/-- C2 witness: a response with a nonempty matching column. -/
theorem c2_composicao_witness :
    composicao_section (buscar_composicao_quimica [Tabela.mk [("logOH", ["8.69"])]]) =
      ["- " ++ ("log(O/H) ≈ " ++ "8.69") ++ " (extraída de catálogo real via VizieR)"] :=
  (c2_composicao_generica_sse [Tabela.mk [("logOH", ["8.69"])]] (by decide)).2
    "8.69" [] (by decide)

/-- C3 (amended): a per-image failure is caught and logged, nothing is saved
for it, and the remaining selected downloads still proceed; however the
failed image's file name is still appended to the `imagens_baixadas` list
handed to the Report Writer, which therefore lists it. -/
theorem c3_falha_download (images : List Candidate) (sel : String) (falha : String → Bool) :
    (processa_downloads images falha (numeros_escolhidos sel)).baixadas =
      ((numeros_escolhidos sel).filter (validIdx images)).map (fnOf images) ∧
    (processa_downloads images falha (numeros_escolhidos sel)).salvas =
      (((numeros_escolhidos sel).filter (validIdx images)).filter
        (fun i => !falha (urlOf images i))).map (fnOf images) ∧
    (processa_downloads images falha (numeros_escolhidos sel)).erros =
      (((numeros_escolhidos sel).filter (validIdx images)).filter
        (fun i => falha (urlOf images i))).map (fun _ => erroMsg) := by
  rw [processa_eq images falha (numeros_escolhidos sel)]
  exact ⟨rfl, rfl, rfl⟩

/-- C3 counterexample: one selected image whose download fails: the failure is
logged and nothing is saved, yet its file name is in the list handed to the
Report Writer and appears in the written report. -/
theorem c3_falha_download_cex :
    (processa_downloads [⟨"Helix", "d", "2001-05-02T00:00:00Z", "http://img"⟩]
      (fun _ => true) (numeros_escolhidos "1")).salvas = [] ∧
    (processa_downloads [⟨"Helix", "d", "2001-05-02T00:00:00Z", "http://img"⟩]
      (fun _ => true) (numeros_escolhidos "1")).erros = [erroMsg] ∧
    (processa_downloads [⟨"Helix", "d", "2001-05-02T00:00:00Z", "http://img"⟩]
      (fun _ => true) (numeros_escolhidos "1")).baixadas = ["Helix_2001-05-02.jpg"] ∧
    "- Helix_2001-05-02.jpg" ∈
      (salvar_info_em_txt "Helix Nebula" none
        (processa_downloads [⟨"Helix", "d", "2001-05-02T00:00:00Z", "http://img"⟩]
          (fun _ => true) (numeros_escolhidos "1")).baixadas
        [] "2026-01-01 00:00:00").2 := by
  refine ⟨rfl, rfl, rfl, ?_⟩
  decide

/-- C6: tokens that are not all digits are silently dropped and digit tokens
become 0-based indices; every out-of-range index produces its own warning and
is skipped without aborting; exactly the in-range selected candidates are
processed; for the selection string of the claim over ten candidates only the
first and second candidates are downloaded and 99 is warned about. -/
theorem c6_selecao_indices :
    numeros_escolhidos "1 99 abc 2" = [0, 98, 1] ∧
    (∀ (images : List Candidate) (falha : String → Bool) (sel : String),
      (processa_downloads images falha (numeros_escolhidos sel)).avisos =
        ((numeros_escolhidos sel).filter (fun i => !validIdx images i)).map
          (fun i => "⚠️ Índice inválido: " ++ toString (i + 1))) ∧
    (∀ (images : List Candidate) (falha : String → Bool), images.length = 10 →
      (processa_downloads images falha (numeros_escolhidos "1 99 abc 2")).baixadas =
        [fnOf images 0, fnOf images 1] ∧
      (processa_downloads images falha (numeros_escolhidos "1 99 abc 2")).avisos =
        ["⚠️ Índice inválido: 99"]) := by
  have hnum : numeros_escolhidos "1 99 abc 2" = [0, 98, 1] := by decide
  refine ⟨hnum, ?_, ?_⟩
  · intro images falha sel
    rw [processa_eq images falha (numeros_escolhidos sel)]
  · intro images falha hlen
    rw [hnum, processa_eq images falha [0, 98, 1]]
    have hv0 : validIdx images 0 = true := by simp [validIdx, hlen]
    have hv98 : validIdx images 98 = false := by simp [validIdx, hlen]
    have hv1 : validIdx images 1 = true := by simp [validIdx, hlen]
    constructor
    · simp [List.filter_cons, hv0, hv98, hv1]
    · simp [List.filter_cons, hv0, hv98, hv1]
      rfl

/-- C6 witness: a concrete ten-candidate list. -/
theorem c6_selecao_indices_witness :
    (processa_downloads (List.replicate 10 ⟨"T", "D", "2020-01-01T00:00:00Z", "u"⟩)
      (fun _ => false) (numeros_escolhidos "1 99 abc 2")).baixadas =
      [fnOf (List.replicate 10 ⟨"T", "D", "2020-01-01T00:00:00Z", "u"⟩) 0,
       fnOf (List.replicate 10 ⟨"T", "D", "2020-01-01T00:00:00Z", "u"⟩) 1] ∧
    (processa_downloads (List.replicate 10 ⟨"T", "D", "2020-01-01T00:00:00Z", "u"⟩)
      (fun _ => false) (numeros_escolhidos "1 99 abc 2")).avisos =
      ["⚠️ Índice inválido: 99"] :=
  c6_selecao_indices.2.2 (List.replicate 10 ⟨"T", "D", "2020-01-01T00:00:00Z", "u"⟩)
    (fun _ => false) (by decide)

/-- C4 (amended): for a 200 response whose first `max_results` items each have
a nonempty `data` array and a `links` key that is absent or nonempty, every
item yields an Image Candidate with missing title, description and creation
date replaced by the placeholder strings and with the URL of the first link
entry (empty when the key is absent or the entry has no href); an item with a
missing or empty `data` array, or a present-but-empty `links` array, instead
raises and the handler discards the entire result list. -/
theorem c4_campos_ausentes (query : String) (items : List Item) (maxr : Nat)
    (hwf : ∀ it ∈ items.take maxr, itemWF it = true) :
    (search_nasa_images query 200 items maxr).2 = (items.take maxr).map candidate_spec :=
  search_wf_eq query items maxr hwf

/-- C4 counterexample: a 200 response with a perfectly parsable first item and
a second item whose `links` array is present but empty: the whole candidate
list is discarded, not just the malformed item. -/
theorem c4_campos_ausentes_cex :
    (parse_item (⟨some [⟨some "A", some "B", some "2020-01-01T00:00:00Z"⟩],
      some [⟨some "http://a"⟩]⟩ : Item)).isSome = true ∧
    (search_nasa_images "q" 200
      [(⟨some [⟨some "A", some "B", some "2020-01-01T00:00:00Z"⟩],
         some [⟨some "http://a"⟩]⟩ : Item),
       (⟨some [⟨none, none, none⟩], some []⟩ : Item)] 10).2 = [] :=
  ⟨rfl, rfl⟩

/-- C4 witness: an item with every optional field missing. -/
theorem c4_campos_ausentes_witness :
    (search_nasa_images "q" 200 [⟨some [⟨none, none, none⟩], none⟩] 10).2 =
      [⟨"Sem título", "Sem descrição", "Desconhecida", ""⟩] := by
  have h := c4_campos_ausentes "q" [⟨some [⟨none, none, none⟩], none⟩] 10 (by decide)
  rw [h]
  rfl

/-- C7 (amended): for a 200 response whose first `max_results` items are well
formed, Image Search returns min(number of items, max_results) candidates in
the order the API returned them; a malformed item among the taken prefix
instead empties the whole result. -/
theorem c7_limite_ordem (query : String) (items : List Item) (maxr : Nat)
    (hwf : ∀ it ∈ items.take maxr, itemWF it = true) :
    (search_nasa_images query 200 items maxr).2 = (items.map candidate_spec).take maxr ∧
    ((search_nasa_images query 200 items maxr).2).length = min items.length maxr := by
  have h := search_wf_eq query items maxr hwf
  constructor
  · rw [h, List.map_take]
  · rw [h]
    simp [List.length_take, Nat.min_comm]

/-- C7 counterexample: a 200 response with 15 items whose third item has an
empty `data` array: the claim predicts min(15, 10) = 10 candidates, the code
returns none at all. -/
theorem c7_limite_ordem_cex :
    ([(⟨some [⟨none, none, none⟩], none⟩ : Item), (⟨some [⟨none, none, none⟩], none⟩ : Item),
      (⟨some [], none⟩ : Item)] ++
      List.replicate 12 (⟨some [⟨none, none, none⟩], none⟩ : Item)).length = 15 ∧
    (search_nasa_images "q" 200
      ([(⟨some [⟨none, none, none⟩], none⟩ : Item), (⟨some [⟨none, none, none⟩], none⟩ : Item),
        (⟨some [], none⟩ : Item)] ++
        List.replicate 12 (⟨some [⟨none, none, none⟩], none⟩ : Item)) 10).2.length = 0 :=
  ⟨rfl, rfl⟩

/-- C7 witness: 15 well-formed items capped at 10. -/
theorem c7_limite_ordem_witness :
    (search_nasa_images "nebula" 200
      (List.replicate 15 (⟨some [⟨none, none, none⟩], none⟩ : Item)) 10).2.length = 10 := by
  have h := c7_limite_ordem "nebula"
    (List.replicate 15 (⟨some [⟨none, none, none⟩], none⟩ : Item)) 10 (by decide)
  rw [h.2]
  decide

/-- C10: before the image-archive request every apostrophe is removed from the
query and surrounding whitespace is trimmed, so the claimed name is searched
without its apostrophe, while the report file name and the report header both
use the unmodified nebula name. -/
theorem c10_consulta_sem_apostrofo :
    (∀ (query : String) (st : Nat) (items : List Item) (n : Nat),
      (search_nasa_images query st items n).1 = pstrip (removeApostrofes query)) ∧
    (search_nasa_images catsEyeNebula 200 [] 10).1 = "Cats Eye Nebula" ∧
    (∀ (dados : Option Registro) (imagens : List String) (resultado : List Tabela)
        (ts : String),
      (salvar_info_em_txt catsEyeNebula dados imagens resultado ts).1 =
        "Cat" ++ apostrofe.toString ++ "s_Eye_Nebula_info.txt" ∧
      ((salvar_info_em_txt catsEyeNebula dados imagens resultado ts).2).head? =
        some ("Nebulosa: " ++ catsEyeNebula)) := by
  refine ⟨?_, by decide, ?_⟩
  · intro query st items n
    unfold search_nasa_images
    by_cases h : st ≠ 200
    · simp [h]
    · simp only [h, if_false]
      by_cases h2 : (items.take n).all (fun it => (parse_item it).isSome) = true
      · simp [h2]
      · simp only [Bool.not_eq_true] at h2
        simp [h2]
    
  · intro dados imagens resultado ts
    constructor
    · show limpar_nome_arquivo catsEyeNebula ++ "_info.txt" =
        "Cat" ++ apostrofe.toString ++ "s_Eye_Nebula_info.txt"
      decide
    · rfl

end NebulaFetcher
